import Mathlib

/-!
Shallow embedding of the VoiceForge client (the Playback Controller of
`AudioPlayer` in its two versions, and the `VoiceStudio` session client),
with proofs of the specification's claims about it.

Numbers that the TypeScript source handles as JS numbers are embedded as
exact rationals (`ℚ`); the non-finite values `NaN`/`±Infinity` are embedded
explicitly where the source tests for them (`formatTime`).
-/

/-! ## JS string helpers

`String.prototype.includes` is embedded as an executable substring test on
the character lists of the strings. -/

/-- Boolean test that `p` is a prefix of `l` (character lists). -/
def hasPre : List Char → List Char → Bool
  | [], _ => true
  | _ :: _, [] => false
  | a :: as, b :: bs => a == b && hasPre as bs

/-- Boolean test that `p` occurs contiguously inside `l`. -/
def hasSub (p : List Char) : List Char → Bool
  | [] => p.isEmpty
  | c :: t => hasPre p (c :: t) || hasSub p t

/-- Embedding of JS `s.includes(pat)`. -/
def jsIncludes (s pat : String) : Bool :=
  hasSub pat.toList s.toList

/-- Embedding of JS `s.toLowerCase()` (ASCII case folding). -/
def jsToLower (s : String) : String :=
  ⟨s.data.map Char.toLower⟩

/-- Embedding of JS `s.padStart(n, c)` for a one-character pad string. -/
def padStart (n : ℕ) (c : Char) (s : String) : String :=
  ⟨List.replicate (n - s.length) c ++ s.data⟩

/-! ## URL classifiers from the source -/

/-- `isPlaceholderUrl` of the new `AudioPlayer` (src/unnamed/part_001):
`url.includes('placeholder_') || url.includes('mock-audio') ||
url.includes('error_placeholder') || url.includes('fallback_')`. -/
def isPlaceholderUrl (url : String) : Bool :=
  jsIncludes url "placeholder_" || jsIncludes url "mock-audio" ||
  jsIncludes url "error_placeholder" || jsIncludes url "fallback_"

/-- `isMurfUrl` of the new `AudioPlayer`:
`url.includes('murf.ai') || url.includes('amazonaws.com')`. -/
def isMurfUrl (url : String) : Bool :=
  jsIncludes url "murf.ai" || jsIncludes url "amazonaws.com"

/-- The old `AudioPlayer.tsx` mock-URL test:
`audioUrl.includes('mock-audio-service.com') || audioUrl.includes('placeholder_')`. -/
def isMockUrl (url : String) : Bool :=
  jsIncludes url "mock-audio-service.com" || jsIncludes url "placeholder_"

/-! ## `formatTime` of the new `AudioPlayer` -/

/-- A JS number as `formatTime` distinguishes them: `NaN`, the two
infinities, or a finite value (embedded exactly as a rational). -/
inductive JSNum where
  | nan : JSNum
  | posInf : JSNum
  | negInf : JSNum
  | finite : ℚ → JSNum

/-- JS truncation toward zero, as used by the `%` operator. -/
def jsTrunc (x : ℚ) : ℤ :=
  if 0 ≤ x then ⌊x⌋ else ⌈x⌉

/-- The JS remainder `a % b`: `a - b * trunc(a / b)`. -/
def jsRem (a b : ℚ) : ℚ :=
  a - b * (jsTrunc (a / b) : ℚ)

/-- `formatTime` (src/unnamed/part_001 lines 336-341):
NaN and non-finite inputs short-circuit to `"0:00"`; otherwise
`Math.floor(time / 60)` minutes and `Math.floor(time % 60)` seconds,
the seconds padded with `'0'` to length 2. -/
def formatTime : JSNum → String
  | JSNum.nan => "0:00"
  | JSNum.posInf => "0:00"
  | JSNum.negInf => "0:00"
  | JSNum.finite time =>
    let minutes : ℤ := ⌊time / 60⌋
    let seconds : ℤ := ⌊jsRem time 60⌋
    toString minutes ++ ":" ++ padStart 2 '0' (toString seconds)

/-! ## The new Playback Controller (src/unnamed/part_001)

The component's React state, refs and the rendered `<audio>` element are
embedded as one record; its event handlers and effects become functions on
that record. `setInterval`/`clearInterval` are embedded with an environment
list `activeTimers` of the interval ids that have been created and not yet
cleared, alongside the component's own ref `simInterval`; the closure-local
`progress` variable of the simulation interval is the field `timerProgress`.
Network requests issued by the component (`fetch` in `testAudioUrl`) are
counted in `fetchCount`. -/

/-- The relevant state of the rendered `HTMLAudioElement`. -/
structure AudioElem where
  paused : Bool
  elemTime : ℚ
  src : String
  elemVolume : ℚ
  deriving DecidableEq, Repr

/-- State of one `AudioPlayer` (new version) instance. -/
structure PlayerState where
  audioUrl : Option String
  isPlaying : Bool
  duration : ℚ
  currentTime : ℚ
  audioError : Option String
  isLoadingAudio : Bool
  audioTested : Bool
  volume : ℚ
  simInterval : Option ℕ
  timerProgress : ℚ
  playPromisePending : Bool
  audioElem : Option AudioElem
  activeTimers : List ℕ
  nextTimerId : ℕ
  fetchCount : ℕ
  deriving DecidableEq, Repr

/-- The initial component state (`useState` initializers; no url prop yet,
no element rendered, no timer, no request issued). -/
def initState : PlayerState :=
  { audioUrl := none, isPlaying := false, duration := 0, currentTime := 0,
    audioError := none, isLoadingAudio := false, audioTested := false,
    volume := 1, simInterval := none, timerProgress := 0,
    playPromisePending := false, audioElem := none, activeTimers := [],
    nextTimerId := 0, fetchCount := 0 }

/-- `if (simulationIntervalRef.current) { clearInterval(...); ref = null }`. -/
def clearSimInterval (s : PlayerState) : PlayerState :=
  match s.simInterval with
  | none => s
  | some i => { s with activeTimers := s.activeTimers.erase i, simInterval := none }

/-- Pausing the element and rewinding it to zero, as the reset effect and
`stopCurrentPlayback` do. -/
def pauseElem (eo : Option AudioElem) : Option AudioElem :=
  eo.map fun e => { e with paused := true, elemTime := 0 }

/-- Rendering: the hidden `<audio>` element exists exactly for a present,
non-placeholder url (`{!isPlaceholder && (<audio ref={audioRef} .../>)}`);
an already-mounted element is kept. -/
def renderElem (url : Option String) (s : PlayerState) : PlayerState :=
  match url with
  | none => { s with audioElem := none }
  | some u =>
    if isPlaceholderUrl u then { s with audioElem := none }
    else
      match s.audioElem with
      | some e => { s with audioElem := some e }
      | none => { s with audioElem := some { paused := true, elemTime := 0, src := "", elemVolume := 1 } }

/-- The reset effect on `audioUrl` change (part_001 lines 21-42): clears the
flags and times, clears the simulation interval, drops the pending play
promise and pauses/rewinds the element. It registers no cleanup function. -/
def resetEffect (s : PlayerState) : PlayerState :=
  let s1 := { s with isPlaying := false, currentTime := 0, duration := 0,
                     audioError := none, audioTested := false, isLoadingAudio := false }
  let s2 := clearSimInterval s1
  let s3 := { s2 with playPromisePending := false }
  { s3 with audioElem := pauseElem s3.audioElem }

/-- Environment outcome of the `fetch(url, { method: 'HEAD' })` probe. -/
inductive FetchOutcome where
  | ok : FetchOutcome
  | notOk : ℕ → FetchOutcome
  | netError : FetchOutcome
  deriving DecidableEq, Repr

/-- `testAudioUrl` (part_001 lines 61-79): Murf urls skip the HEAD probe;
otherwise one `fetch` is issued, a non-ok status sets an accessibility
error, and every path marks the url as tested (the catch swallows errors). -/
def testAudioUrl (url : String) (o : FetchOutcome) (s : PlayerState) : PlayerState :=
  if isMurfUrl url then { s with audioTested := true }
  else
    let s1 := { s with fetchCount := s.fetchCount + 1 }
    match o with
    | FetchOutcome.ok => { s1 with audioTested := true }
    | FetchOutcome.notOk status =>
      { s1 with audioError := some ("Audio file not accessible (" ++ toString status ++ ")"),
                audioTested := true }
    | FetchOutcome.netError => { s1 with audioTested := true }

/-- The url-test effect (part_001 lines 44-49): runs `testAudioUrl` only for
a present, untested, non-placeholder url. -/
def testEffect (o : FetchOutcome) (s : PlayerState) : PlayerState :=
  match s.audioUrl with
  | none => s
  | some u => if !s.audioTested && !isPlaceholderUrl u then testAudioUrl u o s else s

/-- A change of the `audioUrl` prop: re-render, then the reset effect, then
the url-test effect (React runs the effects in declaration order). -/
def changeAudioUrl (url : Option String) (o : FetchOutcome) (s : PlayerState) : PlayerState :=
  testEffect o (resetEffect (renderElem url { s with audioUrl := url }))

/-- `playPlaceholderAudio` (part_001 lines 82-109): requires a url, marks
playing with the mock 5-second duration, clears any existing interval and
starts a fresh simulation interval with its closure progress at 0. -/
def playPlaceholderAudio (s : PlayerState) : PlayerState :=
  match s.audioUrl with
  | none => s
  | some _ =>
    let s1 := { s with isLoadingAudio := false, isPlaying := true, duration := 5 }
    let s2 := match s1.simInterval with
              | none => s1
              | some i => { s1 with activeTimers := s1.activeTimers.erase i }
    { s2 with simInterval := some s2.nextTimerId,
              activeTimers := s2.activeTimers ++ [s2.nextTimerId],
              timerProgress := 0,
              nextTimerId := s2.nextTimerId + 1 }

/-- One firing of the simulation interval callback: `progress += 0.1;
setCurrentTime(progress); if (progress >= 5) { stop, rewind, clear }`. -/
def simTick (s : PlayerState) : PlayerState :=
  match s.simInterval with
  | none => s
  | some i =>
    let p := s.timerProgress + 1 / 10
    if 5 ≤ p then
      { s with timerProgress := p, currentTime := 0, isPlaying := false,
               activeTimers := s.activeTimers.erase i, simInterval := none }
    else
      { s with timerProgress := p, currentTime := p }

/-- `stopCurrentPlayback` (part_001 lines 111-135): clears the simulation
interval; when an element exists, awaits/drops the pending play promise and
pauses/rewinds it; stops playing and zeroes the reported time. -/
def stopCurrentPlayback (s : PlayerState) : PlayerState :=
  let s1 := clearSimInterval s
  let s2 := match s1.audioElem with
            | none => s1
            | some _ => { s1 with playPromisePending := false,
                                  audioElem := pauseElem s1.audioElem }
  { s2 with isPlaying := false, currentTime := 0 }

/-- The message `handleAudioError` picks per `MediaError` code
(1 aborted, 2 network, 3 decode, 4 source-not-supported), its switch
default, and its no-error-object branch. -/
def mediaErrorMessage : Option ℕ → String
  | some 1 => "Audio loading was aborted"
  | some 2 => "Network error while loading audio - check your connection"
  | some 3 => "Audio file is corrupted or invalid format"
  | some 4 => "Audio format not supported"
  | some _ => "Audio error occurred - file may be temporarily unavailable"
  | none => "Audio file could not be loaded"

/-- `handleAudioError` (part_001 lines 286-313): stop the flags, drop the
promise, set the code-specific message. -/
def handleAudioError (code : Option ℕ) (s : PlayerState) : PlayerState :=
  { s with isPlaying := false, isLoadingAudio := false, playPromisePending := false,
           audioError := some (mediaErrorMessage code) }

/-- The message the `loadAudio` promise's own error listener rejects with
(part_001 lines 195-206): with a `MediaError` present,
`Audio load error: ${error.message || 'Unknown error'}` (an empty message
is falsy), else `Audio failed to load`. The argument is the element's
`MediaError.message` when a `MediaError` exists. -/
def loadRejectMessage : Option String → String
  | some m => "Audio load error: " ++ (if m = "" then "Unknown error" else m)
  | none => "Audio failed to load"

/-- Environment outcome of the real-audio branch of `togglePlay`: the
awaited load/play either fulfils, rejects with an `Error` carrying a name
and message (the load timeout, or `play()` itself rejecting), rejects
because the element fired its error event during the awaited load — which
also runs `handleAudioError`, and hands the catch the listener's
`Error('Audio load error: …')` built from the `MediaError`'s code and
message — or rejects with a non-`Error` value. -/
inductive PlayOutcome where
  | started : PlayOutcome
  | failed : String → String → PlayOutcome
  | failedMedia : Option (ℕ × String) → PlayOutcome
  | failedNonError : PlayOutcome
  deriving DecidableEq, Repr

/-- The catch block's error classification (part_001 lines 231-258),
producing the user-visible message from the error's name and message. -/
def classifyPlayError (name msg : String) : String :=
  let lower := jsToLower msg
  if jsIncludes lower "interrupted" || jsIncludes lower "aborted" then
    "Playback was interrupted. Please try again."
  else if jsIncludes lower "cors" || jsIncludes lower "cross-origin" then
    "CORS error - audio may still be accessible via direct link"
  else if jsIncludes lower "timeout" then
    "Audio loading timed out - the file may be large or server slow"
  else if name == "NotSupportedError" then
    "Audio format not supported by your browser"
  else if name == "NotAllowedError" then
    "Audio playback blocked. Click to enable audio"
  else if jsIncludes lower "network" || jsIncludes lower "fetch" then
    "Network error: Unable to load audio file"
  else
    "Playback failed: " ++ msg

/-- The catch block of `togglePlay` for a rejected `Error`: stop the
loading/playing flags, drop the play promise, set the classified message. -/
def applyCatch (name msg : String) (s : PlayerState) : PlayerState :=
  { s with isLoadingAudio := false, isPlaying := false, playPromisePending := false,
           audioError := some (classifyPlayError name msg) }

/-- The catch block of `togglePlay` for a non-`Error` rejection. -/
def applyCatchNonError (s : PlayerState) : PlayerState :=
  { s with isLoadingAudio := false, isPlaying := false, playPromisePending := false,
           audioError := some "Unable to play audio. The file may be temporarily unavailable." }

/-- `togglePlay` (part_001 lines 137-260). No url sets an error; a
placeholder url toggles between `stopCurrentPlayback` and
`playPlaceholderAudio`; a real url needs the element, toggles off via
`stopCurrentPlayback`, and otherwise loads and plays: on fulfilment the
element plays at the chosen volume, on rejection the catch block runs. -/
def togglePlay (o : PlayOutcome) (s : PlayerState) : PlayerState :=
  match s.audioUrl with
  | none => { s with audioError := some "No audio URL available" }
  | some url =>
    let s1 := { s with audioError := none }
    if isPlaceholderUrl url then
      if s1.isPlaying then stopCurrentPlayback s1 else playPlaceholderAudio s1
    else
      match s1.audioElem with
      | none => s1
      | some e =>
        if s1.isPlaying then stopCurrentPlayback s1
        else
          let s2 := { s1 with isLoadingAudio := true }
          let e1 := if e.src != url then { e with src := url } else e
          match o with
          | PlayOutcome.started =>
            { s2 with audioElem := some { e1 with elemVolume := s2.volume, paused := false },
                      isPlaying := true, isLoadingAudio := false,
                      playPromisePending := false }
          | PlayOutcome.failed name msg =>
            applyCatch name msg { s2 with audioElem := some e1 }
          | PlayOutcome.failedMedia err =>
            applyCatch "Error" (loadRejectMessage (err.map Prod.snd))
              (handleAudioError (err.map Prod.fst) { s2 with audioElem := some e1 })
          | PlayOutcome.failedNonError =>
            applyCatchNonError { s2 with audioElem := some e1 }

/-- `handleTimeUpdate`: while playing, mirror the element's clock. -/
def handleTimeUpdate (s : PlayerState) : PlayerState :=
  match s.audioElem with
  | some e => if s.isPlaying then { s with currentTime := e.elemTime } else s
  | none => s

/-- `handleLoadedMetadata`: record the media-reported duration (the
source's `audio.duration || 0` maps a NaN duration to 0; the reported
finite value is the parameter here) and clear the error. -/
def handleLoadedMetadata (d : ℚ) (s : PlayerState) : PlayerState :=
  match s.audioElem with
  | some _ => { s with duration := d, audioError := none }
  | none => s

/-- `handleEnded`: stop, rewind, drop the promise, clear the interval. -/
def handleEnded (s : PlayerState) : PlayerState :=
  clearSimInterval { s with isPlaying := false, currentTime := 0,
                            playPromisePending := false }

/-- The click geometry of a seek: `e.clientX` and the progress bar's
bounding rectangle. -/
structure SeekEvent where
  clientX : ℚ
  rectLeft : ℚ
  rectWidth : ℚ
  deriving DecidableEq, Repr

/-- `handleSeek` (part_001 lines 315-326): no-op without an element, with a
zero duration, or for a placeholder url; otherwise sets element and
reported time to `(clickX / width) * duration`, with no clamping. -/
def handleSeek (e : SeekEvent) (s : PlayerState) : PlayerState :=
  match s.audioElem with
  | none => s
  | some el =>
    if s.duration = 0 || isPlaceholderUrl (s.audioUrl.getD "") then s
    else
      let newTime := (e.clientX - e.rectLeft) / e.rectWidth * s.duration
      { s with audioElem := some { el with elemTime := newTime },
               currentTime := newTime }

/-- `handleVolumeChange`: store the volume and forward it to the element. -/
def handleVolumeChange (v : ℚ) (s : PlayerState) : PlayerState :=
  let s1 := { s with volume := v }
  match s1.audioElem with
  | some e => { s1 with audioElem := some { e with elemVolume := v } }
  | none => s1

/-- Unmounting the component. Neither of the component's effects returns a
cleanup function, so React runs no teardown: in particular a live
simulation interval is not cleared. -/
def unmountPlayer (s : PlayerState) : PlayerState := s

/-- The external events a Playback Controller instance reacts to. -/
inductive PEvent where
  | changeUrl : Option String → FetchOutcome → PEvent
  | toggle : PlayOutcome → PEvent
  | tick : PEvent
  | timeUpdate : PEvent
  | loadedMetadata : ℚ → PEvent
  | ended : PEvent
  | mediaError : Option ℕ → PEvent
  | seek : SeekEvent → PEvent
  | volumeChange : ℚ → PEvent
  | unmountEvt : PEvent

/-- The event dispatch of the component. -/
def step : PEvent → PlayerState → PlayerState
  | PEvent.changeUrl url o, s => changeAudioUrl url o s
  | PEvent.toggle o, s => togglePlay o s
  | PEvent.tick, s => simTick s
  | PEvent.timeUpdate, s => handleTimeUpdate s
  | PEvent.loadedMetadata d, s => handleLoadedMetadata d s
  | PEvent.ended, s => handleEnded s
  | PEvent.mediaError c, s => handleAudioError c s
  | PEvent.seek e, s => handleSeek e s
  | PEvent.volumeChange v, s => handleVolumeChange v s
  | PEvent.unmountEvt, s => unmountPlayer s

/-- The states a component instance can actually be in. -/
inductive Reachable : PlayerState → Prop
  | init : Reachable initState
  | step (e : PEvent) {s : PlayerState} : Reachable s → Reachable (step e s)

/-! ## The VoiceStudio session client (src/unnamed/part_000) -/

/-- A character as the studio lists them. -/
structure Character where
  id : String
  name : String
  description : String
  deriving DecidableEq, Repr

/-- The voice modifiers embedded in an emotion result. -/
structure VoiceModifiers where
  speed_modifier : ℚ
  pitch_modifier : ℚ
  deriving DecidableEq, Repr

/-- The sentiment scores embedded in an emotion result. -/
structure SentimentScores where
  compound : ℚ
  pos : ℚ
  neu : ℚ
  neg : ℚ
  deriving DecidableEq, Repr

/-- The `EmotionData` payload of a voice response. -/
structure EmotionData where
  primary_emotion : String
  confidence : ℚ
  emotion_scores : List (String × ℚ)
  voice_modifiers : VoiceModifiers
  sentiment_scores : SentimentScores
  deriving DecidableEq, Repr

/-- The `VoiceResult` payload the studio keeps as `lastResult`. -/
structure VoiceResult where
  audio_url : String
  emotion : EmotionData
  character_id : String
  text : String
  type : String
  deriving DecidableEq, Repr

/-- A WebSocket `readyState`. -/
inductive WsReady where
  | wsConnecting : WsReady
  | wsOpen : WsReady
  | wsClosing : WsReady
  | wsClosed : WsReady
  deriving DecidableEq, Repr

/-- The studio's displayed connection status. -/
inductive ConnStatus where
  | connecting : ConnStatus
  | connected : ConnStatus
  | disconnected : ConnStatus
  deriving DecidableEq, Repr

/-- The message `generateSpeech` hands to `ws.send`, JSON
`{type: 'voice_request', text, character_id}`. -/
structure VoiceRequestMsg where
  type : String
  text : String
  character_id : String
  deriving DecidableEq, Repr

/-- State of the `VoiceStudio` component: its `useState` fields plus the
WebSocket handle (`none` while no socket object exists) with its ready
state. -/
structure StudioState where
  text : String
  selectedCharacter : String
  characters : List Character
  isGenerating : Bool
  lastResult : Option VoiceResult
  ws : Option WsReady
  connectionStatus : ConnStatus
  deriving DecidableEq, Repr

/-- `generateSpeech` (part_000 lines 115-139): an empty-after-trim text or
a missing/non-open socket alerts and sends nothing; otherwise the
generating flag is set and exactly one `voice_request` with the trimmed
text and the currently selected character id is handed to `ws.send` (the
surrounding try/catch only resets the flag if `send` itself throws). -/
def generateSpeech (s : StudioState) : StudioState × Option VoiceRequestMsg :=
  if s.text.trim = "" then (s, none)
  else
    match s.ws with
    | some WsReady.wsOpen =>
      ({ s with isGenerating := true },
       some { type := "voice_request", text := s.text.trim,
              character_id := s.selectedCharacter })
    | _ => (s, none)

/-! ## The whole client page

The studio renders the player; the player's handlers close only over the
player's own state (the studio passes it nothing but the `audioUrl` and
`isLoading` props), so a player event acts on the `player` component of the
combined state and on nothing else. -/

/-- The combined client state: studio (channel handle, last `VoiceResult`,
all server-facing fields) plus the playback controller. -/
structure GlobalState where
  studio : StudioState
  player : PlayerState
  deriving DecidableEq, Repr

/-- A playback-controller event on the page: it reaches only the player. -/
def globalPlayerStep (e : PEvent) (g : GlobalState) : GlobalState :=
  { g with player := step e g.player }

/-! ## The old Playback Controller (src/frontend/src/components/AudioPlayer.tsx)

Only the mock branch of its `togglePlay` (lines 37-62) is embedded, for the
comparison with the new implementation: it marks playing with a mock
10-second duration and starts a 0.5-second-step interval. -/

/-- State of the old `AudioPlayer`, as far as its mock branch touches it. -/
structure OldPlayerState where
  isPlaying : Bool
  duration : ℚ
  currentTime : ℚ
  isLoadingAudio : Bool
  oldProgress : ℚ
  intervalLive : Bool
  deriving DecidableEq, Repr

/-- The mock branch of the old `togglePlay`: `setIsLoadingAudio(false);
setIsPlaying(true); setDuration(10)` and an interval advancing `progress`
by 0.5 every 500 ms. -/
def oldMockSimulate (s : OldPlayerState) : OldPlayerState :=
  { s with isLoadingAudio := false, isPlaying := true, duration := 10,
           oldProgress := 0, intervalLive := true }

/-- One firing of the old mock interval: `progress += 0.5;
setCurrentTime(progress); if (progress >= 10) { stop, rewind, clear }`. -/
def oldMockTick (s : OldPlayerState) : OldPlayerState :=
  if s.intervalLive then
    let p := s.oldProgress + 1 / 2
    if 10 ≤ p then
      { s with oldProgress := p, currentTime := 0, isPlaying := false,
               intervalLive := false }
    else
      { s with oldProgress := p, currentTime := p }
  else s

/-! ## Reason codes for playback errors

The specification's closed set of client-side playback failure reasons, and
the map from the user-visible messages the handlers produce to that set.
Messages outside the map (the switch default, the missing-`MediaError`
branch, the CORS and unclassified catch messages) are generic: they carry
no reason code. -/

/-- The specification's reason codes. -/
inductive ReasonCode where
  | aborted : ReasonCode
  | network : ReasonCode
  | decode : ReasonCode
  | unsupported : ReasonCode
  | blockedByPolicy : ReasonCode
  | timeout : ReasonCode
  deriving DecidableEq, Repr

/-- Which reason code a produced error message carries, `none` for the
generic messages. -/
def reasonOfMessage (m : String) : Option ReasonCode :=
  if m == "Audio loading was aborted" then some ReasonCode.aborted
  else if m == "Playback was interrupted. Please try again." then some ReasonCode.aborted
  else if m == "Network error while loading audio - check your connection" then some ReasonCode.network
  else if m == "Network error: Unable to load audio file" then some ReasonCode.network
  else if m == "Audio file is corrupted or invalid format" then some ReasonCode.decode
  else if m == "Audio format not supported" then some ReasonCode.unsupported
  else if m == "Audio format not supported by your browser" then some ReasonCode.unsupported
  else if m == "Audio playback blocked. Click to enable audio" then some ReasonCode.blockedByPolicy
  else if m == "Audio loading timed out - the file may be large or server slow" then some ReasonCode.timeout
  else none

/-! ## Invariants of the playback state machine -/

/-- The element is paused, when it exists at all. -/
def elemPaused : Option AudioElem → Prop
  | none => True
  | some e => e.paused = true

/-- The interval environment and the component's ref agree: either no
interval is live, or exactly the one the ref holds. -/
def TimerInv (s : PlayerState) : Prop :=
  (s.simInterval = none ∧ s.activeTimers = []) ∨
  (∃ i, s.simInterval = some i ∧ s.activeTimers = [i])

/-- A placeholder url renders no `<audio>` element. -/
def PlaceholderElemInv (s : PlayerState) : Prop :=
  ∀ u, s.audioUrl = some u → isPlaceholderUrl u = true → s.audioElem = none

/-- No url renders no `<audio>` element. -/
def NoUrlElemInv (s : PlayerState) : Prop :=
  s.audioUrl = none → s.audioElem = none

/-- A live simulation interval excludes a media element: the two possible
progress drivers never coexist. -/
def TimerElemInv (s : PlayerState) : Prop :=
  s.simInterval ≠ none → s.audioElem = none

/-- The conjunction of the playback controller's structural invariants. -/
def PlayerInv (s : PlayerState) : Prop :=
  TimerInv s ∧ PlaceholderElemInv s ∧ NoUrlElemInv s ∧ TimerElemInv s

/-! ## Sample states for concrete instantiations -/

/-- A rendered element of a resolvable audio locator. -/
def sampleElem : AudioElem :=
  { paused := true, elemTime := 0, src := "http://host/audio.mp3", elemVolume := 1 }

/-- A player holding a resolvable (non-placeholder) locator with metadata
loaded and playback stopped. -/
def sampleRealState : PlayerState :=
  { audioUrl := some "http://host/audio.mp3", isPlaying := false, duration := 10,
    currentTime := 0, audioError := none, isLoadingAudio := false, audioTested := true,
    volume := 1, simInterval := none, timerProgress := 0, playPromisePending := false,
    audioElem := some sampleElem, activeTimers := [], nextTimerId := 1, fetchCount := 1 }

/-- A player holding a fallback-sentinel url (no element rendered). -/
def samplePlaceholderState : PlayerState :=
  { audioUrl := some "fallback_demo", isPlaying := false, duration := 0,
    currentTime := 0, audioError := none, isLoadingAudio := false, audioTested := false,
    volume := 1, simInterval := none, timerProgress := 0, playPromisePending := false,
    audioElem := none, activeTimers := [], nextTimerId := 0, fetchCount := 0 }

/-- A player in the middle of a simulated playback of a sentinel url. -/
def sampleBusyState : PlayerState :=
  { audioUrl := some "fallback_old", isPlaying := true, duration := 5,
    currentTime := 3, audioError := none, isLoadingAudio := false, audioTested := false,
    volume := 1, simInterval := some 0, timerProgress := 3, playPromisePending := false,
    audioElem := none, activeTimers := [0], nextTimerId := 1, fetchCount := 0 }

/-- A click at offset 30 on a 20-unit-wide progress bar (past its end). -/
def sampleWideSeek : SeekEvent := { clientX := 30, rectLeft := 0, rectWidth := 20 }

/-- A click at offset 5 on a 20-unit-wide progress bar. -/
def sampleInSeek : SeekEvent := { clientX := 5, rectLeft := 0, rectWidth := 20 }

/-- An idle old-player state. -/
def sampleOldState : OldPlayerState :=
  { isPlaying := false, duration := 0, currentTime := 0, isLoadingAudio := false,
    oldProgress := 0, intervalLive := false }

/-! ## Lemmas: the substring test agrees with `List.IsInfix` -/

theorem hasPre_iff : ∀ (p l : List Char), hasPre p l = true ↔ p <+: l
  | [], l => by simp [hasPre]
  | a :: as, [] => by simp [hasPre]
  | a :: as, b :: bs => by
    simp [hasPre, hasPre_iff as bs, List.cons_prefix_cons]

theorem hasSub_iff (p : List Char) : ∀ (l : List Char), hasSub p l = true ↔ p <:+: l
  | [] => by
    simp [hasSub, List.isEmpty_iff]
  | c :: t => by
    simp [hasSub, hasPre_iff, hasSub_iff p t, List.infix_cons_iff]

theorem jsIncludes_iff {s pat : String} :
    jsIncludes s pat = true ↔ pat.toList <:+: s.toList := by
  simp [jsIncludes, hasSub_iff]

theorem jsIncludes_trans {a b c : String} (h1 : jsIncludes a b = true)
    (h2 : jsIncludes b c = true) : jsIncludes a c = true := by
  rw [jsIncludes_iff] at h1 h2 ⊢
  exact h2.trans h1

/-! ## Lemmas: frame facts of the player transitions -/

theorem testAudioUrl_frame (u : String) (o : FetchOutcome) (s : PlayerState) :
    (testAudioUrl u o s).audioUrl = s.audioUrl ∧
    (testAudioUrl u o s).audioElem = s.audioElem ∧
    (testAudioUrl u o s).simInterval = s.simInterval ∧
    (testAudioUrl u o s).activeTimers = s.activeTimers ∧
    (testAudioUrl u o s).isPlaying = s.isPlaying ∧
    (testAudioUrl u o s).currentTime = s.currentTime ∧
    (testAudioUrl u o s).duration = s.duration ∧
    (testAudioUrl u o s).isLoadingAudio = s.isLoadingAudio ∧
    (testAudioUrl u o s).playPromisePending = s.playPromisePending ∧
    (testAudioUrl u o s).nextTimerId = s.nextTimerId := by
  unfold testAudioUrl
  split <;> cases o <;> simp

theorem testEffect_frame (o : FetchOutcome) (s : PlayerState) :
    (testEffect o s).audioUrl = s.audioUrl ∧
    (testEffect o s).audioElem = s.audioElem ∧
    (testEffect o s).simInterval = s.simInterval ∧
    (testEffect o s).activeTimers = s.activeTimers ∧
    (testEffect o s).isPlaying = s.isPlaying ∧
    (testEffect o s).currentTime = s.currentTime ∧
    (testEffect o s).duration = s.duration ∧
    (testEffect o s).isLoadingAudio = s.isLoadingAudio ∧
    (testEffect o s).playPromisePending = s.playPromisePending ∧
    (testEffect o s).nextTimerId = s.nextTimerId := by
  unfold testEffect
  split
  · simp
  · split
    · exact testAudioUrl_frame ..
    · simp

theorem testEffect_placeholder {s : PlayerState} {u : String} (o : FetchOutcome)
    (hu : s.audioUrl = some u) (hp : isPlaceholderUrl u = true) :
    testEffect o s = s := by
  simp [testEffect, hu, hp]

theorem changeAudioUrl_placeholder (u : String) (o : FetchOutcome) (s : PlayerState)
    (hp : isPlaceholderUrl u = true) :
    changeAudioUrl (some u) o s =
      { s with audioUrl := some u, isPlaying := false, currentTime := 0, duration := 0,
               audioError := none, audioTested := false, isLoadingAudio := false,
               playPromisePending := false, audioElem := none, simInterval := none,
               activeTimers := match s.simInterval with
                               | none => s.activeTimers
                               | some i => s.activeTimers.erase i } := by
  cases hsi : s.simInterval <;>
    simp [changeAudioUrl, renderElem, resetEffect, clearSimInterval, testEffect,
          pauseElem, hp, hsi]

theorem timerInv_of_eq {x y : PlayerState} (hi : x.simInterval = y.simInterval)
    (ht : x.activeTimers = y.activeTimers) (h : TimerInv y) : TimerInv x := by
  rcases h with ⟨h1, h2⟩ | ⟨i, h1, h2⟩
  · exact Or.inl ⟨hi.trans h1, ht.trans h2⟩
  · exact Or.inr ⟨i, hi.trans h1, ht.trans h2⟩

theorem resetEffect_fields (s : PlayerState) :
    (resetEffect s).simInterval = none ∧
    (resetEffect s).audioUrl = s.audioUrl ∧
    (resetEffect s).audioElem = pauseElem s.audioElem ∧
    (resetEffect s).isPlaying = false ∧
    (resetEffect s).currentTime = 0 ∧
    (resetEffect s).duration = 0 ∧
    (resetEffect s).audioError = none ∧
    (resetEffect s).audioTested = false ∧
    (resetEffect s).isLoadingAudio = false ∧
    (resetEffect s).playPromisePending = false ∧
    (resetEffect s).nextTimerId = s.nextTimerId ∧
    (resetEffect s).fetchCount = s.fetchCount := by
  unfold resetEffect clearSimInterval
  cases hsi : s.simInterval <;> simp [pauseElem, hsi]

theorem resetEffect_activeTimers {s : PlayerState} (h : TimerInv s) :
    (resetEffect s).activeTimers = [] := by
  rcases h with ⟨h1, h2⟩ | ⟨i, h1, h2⟩ <;>
    simp [resetEffect, clearSimInterval, h1, h2]

theorem renderElem_frame (url : Option String) (s : PlayerState) :
    (renderElem url s).audioUrl = s.audioUrl ∧
    (renderElem url s).simInterval = s.simInterval ∧
    (renderElem url s).activeTimers = s.activeTimers ∧
    (renderElem url s).isPlaying = s.isPlaying ∧
    (renderElem url s).nextTimerId = s.nextTimerId ∧
    (renderElem url s).fetchCount = s.fetchCount ∧
    (url = none → (renderElem url s).audioElem = none) ∧
    (∀ u, url = some u → isPlaceholderUrl u = true → (renderElem url s).audioElem = none) := by
  unfold renderElem
  cases url with
  | none => simp
  | some u =>
    by_cases hp : isPlaceholderUrl u = true <;>
      [simp [hp]; (cases s.audioElem <;> simp_all)]

theorem changeAudioUrl_fields (url : Option String) (o : FetchOutcome) (s : PlayerState) :
    (changeAudioUrl url o s).isPlaying = false ∧
    (changeAudioUrl url o s).currentTime = 0 ∧
    (changeAudioUrl url o s).duration = 0 ∧
    (changeAudioUrl url o s).isLoadingAudio = false ∧
    (changeAudioUrl url o s).simInterval = none ∧
    (changeAudioUrl url o s).playPromisePending = false ∧
    (changeAudioUrl url o s).audioUrl = url ∧
    (changeAudioUrl url o s).nextTimerId = s.nextTimerId ∧
    elemPaused (changeAudioUrl url o s).audioElem ∧
    (url = none → (changeAudioUrl url o s).audioElem = none) ∧
    (∀ u, url = some u → isPlaceholderUrl u = true →
      (changeAudioUrl url o s).audioElem = none) ∧
    (TimerInv s → (changeAudioUrl url o s).activeTimers = []) := by
  unfold changeAudioUrl
  set s0 := { s with audioUrl := url } with hs0
  obtain ⟨r1, r2, r3, r4, r5, r6, r7, r8⟩ := renderElem_frame url s0
  obtain ⟨e1, e2, e3, e4, e5, e6, e7, e8, e9, e10, e11, e12⟩ :=
    resetEffect_fields (renderElem url s0)
  obtain ⟨t1, t2, t3, t4, t5, t6, t7, t8, t9, t10⟩ :=
    testEffect_frame o (resetEffect (renderElem url s0))
  refine ⟨by rw [t5, e4], by rw [t6, e5], by rw [t7, e6], by rw [t8, e9],
          by rw [t3, e1], by rw [t9, e10], ?_, by rw [t10, e11, r5], ?_, ?_, ?_, ?_⟩
  · rw [t1, e2, r1]
  · rw [t2, e3]
    cases he : (renderElem url s0).audioElem <;> simp [pauseElem, he, elemPaused]
  · intro hnone
    rw [t2, e3, r7 hnone]
    simp [pauseElem]
  · intro u hu hp
    rw [t2, e3, r8 u hu hp]
    simp [pauseElem]
  · intro hT
    rw [t4]
    exact resetEffect_activeTimers (timerInv_of_eq r2 r3 hT)

theorem timerInv_erase {s : PlayerState} (h : TimerInv s) :
    (match s.simInterval with
     | none => s.activeTimers
     | some i => s.activeTimers.erase i) = [] := by
  rcases h with ⟨h1, h2⟩ | ⟨i, h1, h2⟩ <;> simp [h1, h2]

theorem stopCurrentPlayback_eq (s : PlayerState) :
    stopCurrentPlayback s =
      { s with simInterval := none,
               activeTimers := match s.simInterval with
                               | none => s.activeTimers
                               | some i => s.activeTimers.erase i,
               playPromisePending := match s.audioElem with
                                     | none => s.playPromisePending
                                     | some _ => false,
               audioElem := pauseElem s.audioElem,
               isPlaying := false, currentTime := 0 } := by
  cases s with
  | mk url pl dur ct err load tested vol si tp ppp elem timers nid fc =>
    cases si <;> cases elem <;> simp [stopCurrentPlayback, clearSimInterval, pauseElem]

theorem stopCurrentPlayback_fields (s : PlayerState) :
    (stopCurrentPlayback s).simInterval = none ∧
    (stopCurrentPlayback s).audioUrl = s.audioUrl ∧
    (stopCurrentPlayback s).audioElem = pauseElem s.audioElem ∧
    (stopCurrentPlayback s).isPlaying = false ∧
    (stopCurrentPlayback s).currentTime = 0 ∧
    (stopCurrentPlayback s).duration = s.duration ∧
    (stopCurrentPlayback s).fetchCount = s.fetchCount ∧
    (TimerInv s → (stopCurrentPlayback s).activeTimers = []) := by
  rw [stopCurrentPlayback_eq]
  exact ⟨rfl, rfl, rfl, rfl, rfl, rfl, rfl, fun h => timerInv_erase h⟩

theorem playPlaceholderAudio_eq {s : PlayerState} {u : String}
    (hu : s.audioUrl = some u) :
    playPlaceholderAudio s =
      { s with isLoadingAudio := false, isPlaying := true, duration := 5,
               simInterval := some s.nextTimerId,
               activeTimers := (match s.simInterval with
                                | none => s.activeTimers
                                | some i => s.activeTimers.erase i) ++ [s.nextTimerId],
               timerProgress := 0,
               nextTimerId := s.nextTimerId + 1 } := by
  cases s with
  | mk url pl dur ct err load tested vol si tp ppp elem timers nid fc =>
    cases hu
    cases si <;> simp [playPlaceholderAudio]

theorem playPlaceholderAudio_fields {s : PlayerState} {u : String}
    (hu : s.audioUrl = some u) :
    (playPlaceholderAudio s).simInterval = some s.nextTimerId ∧
    (playPlaceholderAudio s).audioUrl = s.audioUrl ∧
    (playPlaceholderAudio s).audioElem = s.audioElem ∧
    (playPlaceholderAudio s).isPlaying = true ∧
    (playPlaceholderAudio s).isLoadingAudio = false ∧
    (playPlaceholderAudio s).duration = 5 ∧
    (playPlaceholderAudio s).timerProgress = 0 ∧
    (playPlaceholderAudio s).fetchCount = s.fetchCount ∧
    (TimerInv s → (playPlaceholderAudio s).activeTimers = [s.nextTimerId]) := by
  rw [playPlaceholderAudio_eq hu]
  refine ⟨rfl, rfl, rfl, rfl, rfl, rfl, rfl, rfl, fun h => ?_⟩
  show (match s.simInterval with
        | none => s.activeTimers
        | some i => s.activeTimers.erase i) ++ [s.nextTimerId] = [s.nextTimerId]
  rw [timerInv_erase h]
  rfl

theorem simTick_none {s : PlayerState} (h : s.simInterval = none) : simTick s = s := by
  simp [simTick, h]

theorem simTick_active {s : PlayerState} {i : ℕ} (hI : s.simInterval = some i)
    (hlt : s.timerProgress + 1 / 10 < 5) :
    simTick s = { s with timerProgress := s.timerProgress + 1 / 10,
                         currentTime := s.timerProgress + 1 / 10 } := by
  have h1 : ¬ (5 ≤ s.timerProgress + 1 / 10) := not_le.mpr hlt
  simp only [simTick, hI]
  rw [if_neg h1]

theorem simTick_finish {s : PlayerState} {i : ℕ} (hI : s.simInterval = some i)
    (hge : 5 ≤ s.timerProgress + 1 / 10) :
    simTick s = { s with timerProgress := s.timerProgress + 1 / 10,
                         currentTime := 0, isPlaying := false,
                         activeTimers := s.activeTimers.erase i,
                         simInterval := none } := by
  simp only [simTick, hI]
  rw [if_pos hge]

theorem simTick_iter {s : PlayerState} {i : ℕ} (hI : s.simInterval = some i)
    (h0 : s.timerProgress = 0) :
    ∀ k : ℕ, k ≤ 49 →
      (simTick^[k] s).simInterval = some i ∧
      (simTick^[k] s).timerProgress = (k : ℚ) / 10 ∧
      (simTick^[k] s).isPlaying = s.isPlaying ∧
      (simTick^[k] s).fetchCount = s.fetchCount ∧
      (simTick^[k] s).duration = s.duration ∧
      (simTick^[k] s).isLoadingAudio = s.isLoadingAudio ∧
      (simTick^[k] s).activeTimers = s.activeTimers ∧
      (simTick^[k] s).audioUrl = s.audioUrl ∧
      (k ≠ 0 → (simTick^[k] s).currentTime = (k : ℚ) / 10)
  | 0, _ => by
    refine ⟨hI, ?_, rfl, rfl, rfl, rfl, rfl, rfl, fun h => absurd rfl h⟩
    show s.timerProgress = (0 : ℚ) / 10
    rw [h0]
    norm_num
  | (k + 1), hk => by
    have hk' : k ≤ 49 := Nat.le_of_succ_le hk
    obtain ⟨p1, p2, p3, p4, p5, p6, p7, p8, p9⟩ := simTick_iter hI h0 k hk'
    have hstep : (k : ℚ) / 10 + 1 / 10 = ((k + 1 : ℕ) : ℚ) / 10 := by
      push_cast
      ring
    have hlt : ((k + 1 : ℕ) : ℚ) / 10 < 5 := by
      have h50 : ((k + 1 : ℕ) : ℚ) < 50 := by
        exact_mod_cast Nat.lt_succ_of_le hk
      linarith
    have hact : (simTick^[k] s).timerProgress + 1 / 10 < 5 := by
      rw [p2, hstep]
      exact hlt
    rw [Function.iterate_succ_apply', simTick_active p1 hact]
    have hprog : (simTick^[k] s).timerProgress + 1 / 10 = ((k + 1 : ℕ) : ℚ) / 10 := by
      rw [p2, hstep]
    exact ⟨p1, hprog, p3, p4, p5, p6, p7, p8, fun _ => hprog⟩

theorem simTick_iter_finish {s : PlayerState} {i : ℕ} (hI : s.simInterval = some i)
    (h0 : s.timerProgress = 0) :
    (simTick^[50] s).isPlaying = false ∧
    (simTick^[50] s).currentTime = 0 ∧
    (simTick^[50] s).simInterval = none ∧
    (simTick^[50] s).fetchCount = s.fetchCount ∧
    (simTick^[50] s).timerProgress = 5 := by
  obtain ⟨p1, p2, p3, p4, p5, p6, p7, p8, p9⟩ := simTick_iter hI h0 49 (le_refl 49)
  have hge : 5 ≤ (simTick^[49] s).timerProgress + 1 / 10 := by
    rw [p2]
    norm_num
  have h5 : (simTick^[49] s).timerProgress + 1 / 10 = 5 := by
    rw [p2]
    norm_num
  have h50 : simTick^[50] s = simTick (simTick^[49] s) :=
    Function.iterate_succ_apply' simTick 49 s
  rw [h50, simTick_finish p1 hge]
  exact ⟨rfl, rfl, rfl, p4, h5⟩

theorem togglePlay_noUrl {s : PlayerState} (o : PlayOutcome) (hu : s.audioUrl = none) :
    togglePlay o s = { s with audioError := some "No audio URL available" } := by
  simp [togglePlay, hu]

theorem togglePlay_placeholder_stop {s : PlayerState} {u : String} (o : PlayOutcome)
    (hu : s.audioUrl = some u) (hp : isPlaceholderUrl u = true) (hpl : s.isPlaying = true) :
    togglePlay o s = stopCurrentPlayback { s with audioError := none } := by
  simp [togglePlay, hu, hp, hpl]

theorem togglePlay_placeholder_play {s : PlayerState} {u : String} (o : PlayOutcome)
    (hu : s.audioUrl = some u) (hp : isPlaceholderUrl u = true) (hpl : s.isPlaying = false) :
    togglePlay o s = playPlaceholderAudio { s with audioError := none } := by
  simp [togglePlay, hu, hp, hpl]

theorem togglePlay_real_noElem {s : PlayerState} {u : String} (o : PlayOutcome)
    (hu : s.audioUrl = some u) (hp : isPlaceholderUrl u = false) (he : s.audioElem = none) :
    togglePlay o s = { s with audioError := none } := by
  simp [togglePlay, hu, hp, he]

theorem togglePlay_real_stop {s : PlayerState} {u : String} {el : AudioElem} (o : PlayOutcome)
    (hu : s.audioUrl = some u) (hp : isPlaceholderUrl u = false)
    (he : s.audioElem = some el) (hpl : s.isPlaying = true) :
    togglePlay o s = stopCurrentPlayback { s with audioError := none } := by
  simp [togglePlay, hu, hp, he, hpl]

theorem togglePlay_real_go_fields {s : PlayerState} {u : String} {el : AudioElem}
    (o : PlayOutcome) (hu : s.audioUrl = some u) (hp : isPlaceholderUrl u = false)
    (he : s.audioElem = some el) (hpl : s.isPlaying = false) :
    (togglePlay o s).simInterval = s.simInterval ∧
    (togglePlay o s).activeTimers = s.activeTimers ∧
    (togglePlay o s).audioUrl = s.audioUrl ∧
    (∃ e1, (togglePlay o s).audioElem = some e1) := by
  cases o <;>
    simp [togglePlay, applyCatch, applyCatchNonError, handleAudioError, hu, hp, he, hpl]

theorem togglePlay_real_failed {s : PlayerState} {u : String} {el : AudioElem}
    (name msg : String) (hu : s.audioUrl = some u) (hp : isPlaceholderUrl u = false)
    (he : s.audioElem = some el) (hpl : s.isPlaying = false) :
    (togglePlay (PlayOutcome.failed name msg) s).audioError
        = some (classifyPlayError name msg) ∧
    (togglePlay (PlayOutcome.failed name msg) s).isPlaying = false ∧
    (togglePlay (PlayOutcome.failed name msg) s).isLoadingAudio = false ∧
    (togglePlay (PlayOutcome.failed name msg) s).playPromisePending = false := by
  simp [togglePlay, applyCatch, hu, hp, he, hpl]

theorem togglePlay_real_failedMedia {s : PlayerState} {u : String} {el : AudioElem}
    (err : Option (ℕ × String)) (hu : s.audioUrl = some u)
    (hp : isPlaceholderUrl u = false) (he : s.audioElem = some el)
    (hpl : s.isPlaying = false) :
    (togglePlay (PlayOutcome.failedMedia err) s).audioError
        = some (classifyPlayError "Error" (loadRejectMessage (err.map Prod.snd))) ∧
    (togglePlay (PlayOutcome.failedMedia err) s).isPlaying = false ∧
    (togglePlay (PlayOutcome.failedMedia err) s).isLoadingAudio = false ∧
    (togglePlay (PlayOutcome.failedMedia err) s).playPromisePending = false := by
  simp [togglePlay, applyCatch, handleAudioError, hu, hp, he, hpl]

theorem handleEnded_eq (s : PlayerState) :
    handleEnded s = { s with isPlaying := false, currentTime := 0,
                             playPromisePending := false, simInterval := none,
                             activeTimers := match s.simInterval with
                                             | none => s.activeTimers
                                             | some i => s.activeTimers.erase i } := by
  cases s with
  | mk url pl dur ct err load tested vol si tp ppp elem timers nid fc =>
    cases si <;> simp [handleEnded, clearSimInterval]

theorem handleSeek_noElem {e : SeekEvent} {s : PlayerState} (he : s.audioElem = none) :
    handleSeek e s = s := by
  simp [handleSeek, he]

theorem handleSeek_guard {e : SeekEvent} {s : PlayerState} {el : AudioElem}
    (he : s.audioElem = some el)
    (hc : s.duration = 0 ∨ isPlaceholderUrl (s.audioUrl.getD "") = true) :
    handleSeek e s = s := by
  unfold handleSeek
  rw [he]
  simp [hc]

theorem handleSeek_go {e : SeekEvent} {s : PlayerState} {el : AudioElem}
    (he : s.audioElem = some el)
    (hc : ¬(s.duration = 0 ∨ isPlaceholderUrl (s.audioUrl.getD "") = true)) :
    handleSeek e s =
      { s with audioElem := some { el with
                 elemTime := (e.clientX - e.rectLeft) / e.rectWidth * s.duration },
               currentTime := (e.clientX - e.rectLeft) / e.rectWidth * s.duration } := by
  unfold handleSeek
  rw [he]
  simp [hc]

theorem handleTimeUpdate_none {s : PlayerState} (he : s.audioElem = none) :
    handleTimeUpdate s = s := by
  simp [handleTimeUpdate, he]

theorem handleTimeUpdate_some {s : PlayerState} {el : AudioElem}
    (he : s.audioElem = some el) :
    handleTimeUpdate s =
      if s.isPlaying then { s with currentTime := el.elemTime } else s := by
  unfold handleTimeUpdate
  rw [he]

theorem handleLoadedMetadata_none {s : PlayerState} (d : ℚ) (he : s.audioElem = none) :
    handleLoadedMetadata d s = s := by
  simp [handleLoadedMetadata, he]

theorem handleLoadedMetadata_some {s : PlayerState} {el : AudioElem} (d : ℚ)
    (he : s.audioElem = some el) :
    handleLoadedMetadata d s = { s with duration := d, audioError := none } := by
  unfold handleLoadedMetadata
  rw [he]

theorem handleVolumeChange_none {s : PlayerState} (v : ℚ) (he : s.audioElem = none) :
    handleVolumeChange v s = { s with volume := v } := by
  simp [handleVolumeChange, he]

theorem handleVolumeChange_some {s : PlayerState} {el : AudioElem} (v : ℚ)
    (he : s.audioElem = some el) :
    handleVolumeChange v s =
      { s with volume := v, audioElem := some { el with elemVolume := v } } := by
  simp [handleVolumeChange, he]

theorem playerInv_init : PlayerInv initState := by
  refine ⟨Or.inl ⟨rfl, rfl⟩, ?_, ?_, ?_⟩
  · intro u hu _
    cases hu
  · intro _
    rfl
  · intro h
    exact absurd rfl h

theorem playerInv_step (e : PEvent) {s : PlayerState} (h : PlayerInv s) :
    PlayerInv (step e s) := by
  obtain ⟨hT, hP, hN, hTE⟩ := h
  cases e with
  | changeUrl url o =>
    show PlayerInv (changeAudioUrl url o s)
    obtain ⟨c1, c2, c3, c4, c5, c6, c7, c8, c9, c10, c11, c12⟩ :=
      changeAudioUrl_fields url o s
    refine ⟨Or.inl ⟨c5, c12 hT⟩, ?_, ?_, ?_⟩
    · intro u hu hp
      rw [c7] at hu
      exact c11 u hu hp
    · intro hnone
      rw [c7] at hnone
      exact c10 hnone
    · intro hsome
      rw [c5] at hsome
      exact absurd rfl hsome
  | toggle o =>
    show PlayerInv (togglePlay o s)
    cases hu : s.audioUrl with
    | none =>
      rw [togglePlay_noUrl o hu]
      refine ⟨hT, hP, hN, hTE⟩
    | some u =>
      by_cases hp : isPlaceholderUrl u = true
      · cases hpl : s.isPlaying with
        | true =>
          rw [togglePlay_placeholder_stop o hu hp hpl]
          obtain ⟨q1, q2, q3, q4, q5, q6, q7, q8⟩ :=
            stopCurrentPlayback_fields { s with audioError := none }
          refine ⟨Or.inl ⟨q1, q8 hT⟩, ?_, ?_, fun hn => absurd q1 hn⟩
          · intro v hv hpv
            have hv' : s.audioUrl = some v := q2 ▸ hv
            have he : s.audioElem = none := hP v hv' hpv
            rw [q3]
            show pauseElem s.audioElem = none
            rw [he]
            rfl
          · intro hnone
            have h0 : s.audioUrl = none := q2 ▸ hnone
            rw [hu] at h0
            cases h0
        | false =>
          rw [togglePlay_placeholder_play o hu hp hpl]
          obtain ⟨r1, r2, r3, r4, r5, r6, r7, r8, r9⟩ :=
            playPlaceholderAudio_fields (s := { s with audioError := none }) (u := u) hu
          have helem : s.audioElem = none := hP u hu hp
          refine ⟨Or.inr ⟨s.nextTimerId, r1, r9 hT⟩, ?_, ?_, ?_⟩
          · intro v hv hpv
            rw [r3]
            exact helem
          · intro hnone
            have h0 : s.audioUrl = none := r2 ▸ hnone
            rw [hu] at h0
            cases h0
          · intro _
            rw [r3]
            exact helem
      · have hp' : isPlaceholderUrl u = false := by
          revert hp
          cases isPlaceholderUrl u <;> simp
        cases he : s.audioElem with
        | none =>
          rw [togglePlay_real_noElem o hu hp' he]
          exact ⟨hT, hP, hN, hTE⟩
        | some el =>
          cases hpl : s.isPlaying with
          | true =>
            rw [togglePlay_real_stop o hu hp' he hpl]
            obtain ⟨q1, q2, q3, q4, q5, q6, q7, q8⟩ :=
              stopCurrentPlayback_fields { s with audioError := none }
            refine ⟨Or.inl ⟨q1, q8 hT⟩, ?_, ?_, fun hn => absurd q1 hn⟩
            · intro v hv hpv
              have hv' : s.audioUrl = some v := q2 ▸ hv
              rw [hu] at hv'
              injection hv' with hv2
              subst hv2
              rw [hpv] at hp'
              cases hp'
            · intro hnone
              have h0 : s.audioUrl = none := q2 ▸ hnone
              rw [hu] at h0
              cases h0
          | false =>
            obtain ⟨g1, g2, g3, g4⟩ := togglePlay_real_go_fields o hu hp' he hpl
            obtain ⟨e1, he1⟩ := g4
            refine ⟨timerInv_of_eq g1 g2 hT, ?_, ?_, ?_⟩
            · intro v hv hpv
              have hv' : s.audioUrl = some v := g3 ▸ hv
              rw [hu] at hv'
              injection hv' with hv2
              subst hv2
              rw [hpv] at hp'
              cases hp'
            · intro hnone
              have h0 : s.audioUrl = none := g3 ▸ hnone
              rw [hu] at h0
              cases h0
            · intro hn
              have hn' : s.simInterval ≠ none := fun h0 => hn (g1.trans h0)
              have h0 : s.audioElem = none := hTE hn'
              rw [he] at h0
              cases h0
  | tick =>
    show PlayerInv (simTick s)
    cases hsi : s.simInterval with
    | none =>
      rw [simTick_none hsi]
      exact ⟨hT, hP, hN, hTE⟩
    | some i =>
      by_cases hcond : 5 ≤ s.timerProgress + 1 / 10
      · rw [simTick_finish hsi hcond]
        refine ⟨Or.inl ⟨rfl, ?_⟩, hP, hN, fun hn => absurd rfl hn⟩
        show s.activeTimers.erase i = []
        rcases hT with ⟨h1, _⟩ | ⟨j, h1, h2⟩
        · rw [hsi] at h1
          cases h1
        · rw [hsi] at h1
          injection h1 with hj
          subst hj
          rw [h2]
          simp
      · rw [simTick_active hsi (not_le.mp hcond)]
        exact ⟨hT, hP, hN, hTE⟩
  | timeUpdate =>
    show PlayerInv (handleTimeUpdate s)
    cases he : s.audioElem with
    | none =>
      rw [handleTimeUpdate_none he]
      exact ⟨hT, hP, hN, hTE⟩
    | some el =>
      rw [handleTimeUpdate_some he]
      split
      · exact ⟨hT, hP, hN, hTE⟩
      · exact ⟨hT, hP, hN, hTE⟩
  | loadedMetadata d =>
    show PlayerInv (handleLoadedMetadata d s)
    cases he : s.audioElem with
    | none =>
      rw [handleLoadedMetadata_none d he]
      exact ⟨hT, hP, hN, hTE⟩
    | some el =>
      rw [handleLoadedMetadata_some d he]
      exact ⟨hT, hP, hN, hTE⟩
  | ended =>
    show PlayerInv (handleEnded s)
    rw [handleEnded_eq]
    exact ⟨Or.inl ⟨rfl, timerInv_erase hT⟩, hP, hN, fun hn => absurd rfl hn⟩
  | mediaError c =>
    show PlayerInv (handleAudioError c s)
    exact ⟨hT, hP, hN, hTE⟩
  | seek ev =>
    show PlayerInv (handleSeek ev s)
    cases he : s.audioElem with
    | none =>
      rw [handleSeek_noElem he]
      exact ⟨hT, hP, hN, hTE⟩
    | some el =>
      by_cases hc : s.duration = 0 ∨ isPlaceholderUrl (s.audioUrl.getD "") = true
      · rw [handleSeek_guard he hc]
        exact ⟨hT, hP, hN, hTE⟩
      · rw [handleSeek_go he hc]
        refine ⟨hT, ?_, ?_, ?_⟩
        · intro v hv hpv
          have hv' : s.audioUrl = some v := hv
          exact absurd (Or.inr (by rw [hv']; exact hpv)) hc
        · intro hnone
          have h0 : s.audioElem = none := hN hnone
          rw [he] at h0
          cases h0
        · intro hn
          have h0 : s.audioElem = none := hTE hn
          rw [he] at h0
          cases h0
  | volumeChange v =>
    show PlayerInv (handleVolumeChange v s)
    cases he : s.audioElem with
    | none =>
      rw [handleVolumeChange_none v he]
      exact ⟨hT, hP, hN, hTE⟩
    | some el =>
      rw [handleVolumeChange_some v he]
      refine ⟨hT, ?_, ?_, ?_⟩
      · intro v2 hv hpv
        have h0 : s.audioElem = none := hP v2 hv hpv
        rw [he] at h0
        cases h0
      · intro hnone
        have h0 : s.audioElem = none := hN hnone
        rw [he] at h0
        cases h0
      · intro hn
        have h0 : s.audioElem = none := hTE hn
        rw [he] at h0
        cases h0
  | unmountEvt =>
    exact ⟨hT, hP, hN, hTE⟩

theorem playerInv_reachable {s : PlayerState} (h : Reachable s) : PlayerInv s := by
  induction h with
  | init => exact playerInv_init
  | step e _ ih => exact playerInv_step e ih

/-! ## The claims -/

/-- Claim C1 (amended): per Playback Controller instance at most one
progress driver is ever active — the interval environment never holds more
than one timer, and a live simulation interval excludes a rendered media
element — and a change of the audio reference deterministically stops the
running timer (the interval list empties, the ref is nulled) and pauses the
media element. (The unmount half of the original claim is false: the effect
registers no cleanup, see the counterexample.) -/
theorem C1_single_timer (s : PlayerState) (hs : Reachable s) :
    s.activeTimers.length ≤ 1 ∧
    (s.simInterval ≠ none → s.audioElem = none) ∧
    (∀ (url : Option String) (o : FetchOutcome),
      (changeAudioUrl url o s).activeTimers = [] ∧
      (changeAudioUrl url o s).simInterval = none ∧
      elemPaused (changeAudioUrl url o s).audioElem) := by
  obtain ⟨hT, hP, hN, hTE⟩ := playerInv_reachable hs
  refine ⟨?_, hTE, ?_⟩
  · rcases hT with ⟨_, h2⟩ | ⟨i, _, h2⟩ <;> rw [h2] <;> simp
  · intro url o
    obtain ⟨c1, c2, c3, c4, c5, c6, c7, c8, c9, c10, c11, c12⟩ :=
      changeAudioUrl_fields url o s
    exact ⟨c12 hT, c5, c9⟩

/-- Claim C1, witness: the single-timer statement at the concrete reachable
state obtained by loading a fallback url and starting simulated playback. -/
theorem C1_single_timer_witness :
    (step (PEvent.toggle PlayOutcome.started)
      (step (PEvent.changeUrl (some "fallback_demo") FetchOutcome.ok)
        initState)).activeTimers.length ≤ 1 ∧
    ((step (PEvent.toggle PlayOutcome.started)
      (step (PEvent.changeUrl (some "fallback_demo") FetchOutcome.ok)
        initState)).simInterval ≠ none →
     (step (PEvent.toggle PlayOutcome.started)
      (step (PEvent.changeUrl (some "fallback_demo") FetchOutcome.ok)
        initState)).audioElem = none) ∧
    (∀ (url : Option String) (o : FetchOutcome),
      (changeAudioUrl url o
        (step (PEvent.toggle PlayOutcome.started)
          (step (PEvent.changeUrl (some "fallback_demo") FetchOutcome.ok)
            initState))).activeTimers = [] ∧
      (changeAudioUrl url o
        (step (PEvent.toggle PlayOutcome.started)
          (step (PEvent.changeUrl (some "fallback_demo") FetchOutcome.ok)
            initState))).simInterval = none ∧
      elemPaused (changeAudioUrl url o
        (step (PEvent.toggle PlayOutcome.started)
          (step (PEvent.changeUrl (some "fallback_demo") FetchOutcome.ok)
            initState))).audioElem) :=
  C1_single_timer _
    (Reachable.step (PEvent.toggle PlayOutcome.started)
      (Reachable.step (PEvent.changeUrl (some "fallback_demo") FetchOutcome.ok)
        Reachable.init))

/-- Claim C1, counterexample: after loading a fallback url and starting the
simulated playback, the simulation interval is live; unmounting the
component does not stop it (neither effect returns a cleanup), refuting
"whenever ... the component is unmounted, any running simulation interval
... is stopped". -/
theorem C1_counterexample :
    (step PEvent.unmountEvt
      (step (PEvent.toggle PlayOutcome.started)
        (step (PEvent.changeUrl (some "fallback_demo") FetchOutcome.ok)
          initState))).activeTimers = [0] ∧
    (step PEvent.unmountEvt
      (step (PEvent.toggle PlayOutcome.started)
        (step (PEvent.changeUrl (some "fallback_demo") FetchOutcome.ok)
          initState))).simInterval = some 0 := by
  decide

/-- Claim C2: for a fallback-sentinel audio reference, starting playback is
immediate and network-free (the loading flag stays false and no fetch is
issued by the url change or the toggle), enters Playing with the fixed
5-second simulated duration, the local timer advances elapsed time in
0.1-second increments staying in Playing through the 49th tick, and the
50th tick — elapsed time reaching the 5-second duration — ends playback
(playing stops, time rewinds, the interval is cleared), still without any
network activity. -/
theorem C2_placeholder_playback (s0 : PlayerState) (url : String) (o : FetchOutcome)
    (ot : PlayOutcome) (k : ℕ) (hurl : isPlaceholderUrl url = true) (hk : k ≤ 49) :
    (changeAudioUrl (some url) o s0).fetchCount = s0.fetchCount ∧
    (changeAudioUrl (some url) o s0).isLoadingAudio = false ∧
    (togglePlay ot (changeAudioUrl (some url) o s0)).isPlaying = true ∧
    (togglePlay ot (changeAudioUrl (some url) o s0)).isLoadingAudio = false ∧
    (togglePlay ot (changeAudioUrl (some url) o s0)).duration = 5 ∧
    (togglePlay ot (changeAudioUrl (some url) o s0)).fetchCount = s0.fetchCount ∧
    (simTick^[k] (togglePlay ot (changeAudioUrl (some url) o s0))).isPlaying = true ∧
    (simTick^[k] (togglePlay ot (changeAudioUrl (some url) o s0))).timerProgress
        = (k : ℚ) / 10 ∧
    (simTick^[k] (togglePlay ot (changeAudioUrl (some url) o s0))).fetchCount
        = s0.fetchCount ∧
    (simTick^[50] (togglePlay ot (changeAudioUrl (some url) o s0))).isPlaying = false ∧
    (simTick^[50] (togglePlay ot (changeAudioUrl (some url) o s0))).currentTime = 0 ∧
    (simTick^[50] (togglePlay ot (changeAudioUrl (some url) o s0))).simInterval = none ∧
    (simTick^[50] (togglePlay ot (changeAudioUrl (some url) o s0))).fetchCount
        = s0.fetchCount := by
  obtain ⟨c1, c2, c3, c4, c5, c6, c7, c8, c9, c10, c11, c12⟩ :=
    changeAudioUrl_fields (some url) o s0
  have hfetch : (changeAudioUrl (some url) o s0).fetchCount = s0.fetchCount := by
    rw [changeAudioUrl_placeholder url o s0 hurl]
  set s := changeAudioUrl (some url) o s0 with hs
  have htog : togglePlay ot s = playPlaceholderAudio { s with audioError := none } :=
    togglePlay_placeholder_play ot c7 hurl c1
  have hu2 : ({ s with audioError := none } : PlayerState).audioUrl = some url := c7
  obtain ⟨r1, r2, r3, r4, r5, r6, r7, r8, r9⟩ :=
    playPlaceholderAudio_fields (s := { s with audioError := none }) hu2
  rw [htog]
  have hfc2 : (playPlaceholderAudio { s with audioError := none }).fetchCount
      = s0.fetchCount := by
    rw [r8]
    exact hfetch
  obtain ⟨p1, p2, p3, p4, p5, p6, p7, p8, p9⟩ := simTick_iter r1 r7 k hk
  obtain ⟨q1, q2, q3, q4, q5⟩ := simTick_iter_finish r1 r7
  refine ⟨hfetch, c4, r4, r5, r6, hfc2, ?_, p2, ?_, q1, q2, q3, ?_⟩
  · rw [p3]
    exact r4
  · rw [p4]
    exact hfc2
  · rw [q4]
    exact hfc2

/-- Claim C2, witness: the fallback-playback statement at the initial state
with url `"fallback_demo"` after 7 ticks. -/
theorem C2_placeholder_playback_witness :
    (changeAudioUrl (some "fallback_demo") FetchOutcome.ok initState).fetchCount
        = initState.fetchCount ∧
    (changeAudioUrl (some "fallback_demo") FetchOutcome.ok initState).isLoadingAudio
        = false ∧
    (togglePlay PlayOutcome.started
      (changeAudioUrl (some "fallback_demo") FetchOutcome.ok initState)).isPlaying
        = true ∧
    (togglePlay PlayOutcome.started
      (changeAudioUrl (some "fallback_demo") FetchOutcome.ok initState)).isLoadingAudio
        = false ∧
    (togglePlay PlayOutcome.started
      (changeAudioUrl (some "fallback_demo") FetchOutcome.ok initState)).duration = 5 ∧
    (togglePlay PlayOutcome.started
      (changeAudioUrl (some "fallback_demo") FetchOutcome.ok initState)).fetchCount
        = initState.fetchCount ∧
    (simTick^[7] (togglePlay PlayOutcome.started
      (changeAudioUrl (some "fallback_demo") FetchOutcome.ok initState))).isPlaying
        = true ∧
    (simTick^[7] (togglePlay PlayOutcome.started
      (changeAudioUrl (some "fallback_demo") FetchOutcome.ok initState))).timerProgress
        = (7 : ℚ) / 10 ∧
    (simTick^[7] (togglePlay PlayOutcome.started
      (changeAudioUrl (some "fallback_demo") FetchOutcome.ok initState))).fetchCount
        = initState.fetchCount ∧
    (simTick^[50] (togglePlay PlayOutcome.started
      (changeAudioUrl (some "fallback_demo") FetchOutcome.ok initState))).isPlaying
        = false ∧
    (simTick^[50] (togglePlay PlayOutcome.started
      (changeAudioUrl (some "fallback_demo") FetchOutcome.ok initState))).currentTime
        = 0 ∧
    (simTick^[50] (togglePlay PlayOutcome.started
      (changeAudioUrl (some "fallback_demo") FetchOutcome.ok initState))).simInterval
        = none ∧
    (simTick^[50] (togglePlay PlayOutcome.started
      (changeAudioUrl (some "fallback_demo") FetchOutcome.ok initState))).fetchCount
        = initState.fetchCount :=
  C2_placeholder_playback initState "fallback_demo" FetchOutcome.ok PlayOutcome.started 7
    (by decide) (by decide)

/-- Claim C3, counterexample: a decode failure (`MEDIA_ERR_DECODE`, code 3)
whose `MediaError.message` is empty — which the platform permits — during
the load `togglePlay` awaits: the element's error handler first writes the
specific decode message, but the load promise rejects with
`Error('Audio load error: Unknown error')` and the catch block then
overwrites it with the generic `Playback failed: …`, which carries no
reason code. This refutes "never a generic or absent reason" for a decode
failure during loading. -/
theorem C3_counterexample :
    (togglePlay (PlayOutcome.failedMedia (some (3, ""))) sampleRealState).audioError
        = some "Playback failed: Audio load error: Unknown error" ∧
    reasonOfMessage "Playback failed: Audio load error: Unknown error" = none ∧
    (handleAudioError (some 3) sampleRealState).audioError
        = some "Audio file is corrupted or invalid format" := by
  decide

/-- Claim C3 (amended): for a resolvable locator, a media failure surfacing
through the element's error handler alone — a failure outside a pending
`togglePlay` load — carries the specific reason code of its `MediaError`
code (aborted, network, decode, unsupported), playback stopped; the
bounded load timeout likewise carries the specific timeout reason. But a
media failure during the awaited load also rejects the load promise, and
the catch block overwrites the handler's specific message with the
classification of `Audio load error: ${error.message || 'Unknown error'}`,
which is the generic `Playback failed: …` — carrying no reason code —
whenever the `MediaError`'s message (the empty message included) contains
no recognized keyword. -/
theorem C3_error_reasons (s : PlayerState) (url : String) (el : AudioElem)
    (hu : s.audioUrl = some url) (hp : isPlaceholderUrl url = false)
    (he : s.audioElem = some el) (hpl : s.isPlaying = false) :
    ((step (PEvent.mediaError (some 1)) s).audioError
        = some "Audio loading was aborted" ∧
     reasonOfMessage "Audio loading was aborted" = some ReasonCode.aborted) ∧
    ((step (PEvent.mediaError (some 2)) s).audioError
        = some "Network error while loading audio - check your connection" ∧
     reasonOfMessage "Network error while loading audio - check your connection"
        = some ReasonCode.network) ∧
    ((step (PEvent.mediaError (some 3)) s).audioError
        = some "Audio file is corrupted or invalid format" ∧
     reasonOfMessage "Audio file is corrupted or invalid format"
        = some ReasonCode.decode) ∧
    ((step (PEvent.mediaError (some 4)) s).audioError
        = some "Audio format not supported" ∧
     reasonOfMessage "Audio format not supported" = some ReasonCode.unsupported) ∧
    (∀ c : Option ℕ, (step (PEvent.mediaError c) s).isPlaying = false) ∧
    ((togglePlay (PlayOutcome.failed "Error" "Audio load timeout") s).audioError
        = some "Audio loading timed out - the file may be large or server slow" ∧
     (togglePlay (PlayOutcome.failed "Error" "Audio load timeout") s).isPlaying
        = false ∧
     reasonOfMessage "Audio loading timed out - the file may be large or server slow"
        = some ReasonCode.timeout) ∧
    (∀ err : Option (ℕ × String),
       (togglePlay (PlayOutcome.failedMedia err) s).audioError
           = some (classifyPlayError "Error" (loadRejectMessage (err.map Prod.snd))) ∧
       (togglePlay (PlayOutcome.failedMedia err) s).isPlaying = false) ∧
    ((togglePlay (PlayOutcome.failedMedia (some (3, ""))) s).audioError
        = some "Playback failed: Audio load error: Unknown error" ∧
     reasonOfMessage "Playback failed: Audio load error: Unknown error" = none) := by
  obtain ⟨f1, f2, f3, f4⟩ :=
    togglePlay_real_failed "Error" "Audio load timeout" hu hp he hpl
  refine ⟨⟨?_, by decide⟩, ⟨?_, by decide⟩, ⟨?_, by decide⟩, ⟨?_, by decide⟩,
          fun c => rfl, ⟨?_, f2, by decide⟩, fun err => ?_, ⟨?_, by decide⟩⟩
  · show some (mediaErrorMessage (some 1)) = some "Audio loading was aborted"
    decide
  · show some (mediaErrorMessage (some 2))
        = some "Network error while loading audio - check your connection"
    decide
  · show some (mediaErrorMessage (some 3))
        = some "Audio file is corrupted or invalid format"
    decide
  · show some (mediaErrorMessage (some 4)) = some "Audio format not supported"
    decide
  · rw [f1]
    decide
  · obtain ⟨g1, g2, g3, g4⟩ := togglePlay_real_failedMedia err hu hp he hpl
    exact ⟨g1, g2⟩
  · obtain ⟨g1, g2, g3, g4⟩ :=
      togglePlay_real_failedMedia (some (3, "")) hu hp he hpl
    rw [g1]
    decide

/-- Claim C3, witness: the amended error-reason statement at the sample
real-locator state. -/
theorem C3_error_reasons_witness :
    ((step (PEvent.mediaError (some 1)) sampleRealState).audioError
        = some "Audio loading was aborted" ∧
     reasonOfMessage "Audio loading was aborted" = some ReasonCode.aborted) ∧
    ((step (PEvent.mediaError (some 2)) sampleRealState).audioError
        = some "Network error while loading audio - check your connection" ∧
     reasonOfMessage "Network error while loading audio - check your connection"
        = some ReasonCode.network) ∧
    ((step (PEvent.mediaError (some 3)) sampleRealState).audioError
        = some "Audio file is corrupted or invalid format" ∧
     reasonOfMessage "Audio file is corrupted or invalid format"
        = some ReasonCode.decode) ∧
    ((step (PEvent.mediaError (some 4)) sampleRealState).audioError
        = some "Audio format not supported" ∧
     reasonOfMessage "Audio format not supported" = some ReasonCode.unsupported) ∧
    (∀ c : Option ℕ, (step (PEvent.mediaError c) sampleRealState).isPlaying = false) ∧
    ((togglePlay (PlayOutcome.failed "Error" "Audio load timeout")
        sampleRealState).audioError
        = some "Audio loading timed out - the file may be large or server slow" ∧
     (togglePlay (PlayOutcome.failed "Error" "Audio load timeout")
        sampleRealState).isPlaying = false ∧
     reasonOfMessage "Audio loading timed out - the file may be large or server slow"
        = some ReasonCode.timeout) ∧
    (∀ err : Option (ℕ × String),
       (togglePlay (PlayOutcome.failedMedia err) sampleRealState).audioError
           = some (classifyPlayError "Error" (loadRejectMessage (err.map Prod.snd))) ∧
       (togglePlay (PlayOutcome.failedMedia err) sampleRealState).isPlaying = false) ∧
    ((togglePlay (PlayOutcome.failedMedia (some (3, ""))) sampleRealState).audioError
        = some "Playback failed: Audio load error: Unknown error" ∧
     reasonOfMessage "Playback failed: Audio load error: Unknown error" = none) :=
  C3_error_reasons sampleRealState "http://host/audio.mp3" sampleElem
    rfl (by decide) rfl rfl

/-- Claim C4: a `voice_request` handed to the channel by `generateSpeech`
always has exactly the shape `{type: "voice_request", text, character_id}`
with the trimmed, non-empty text and the currently selected character id,
and it is only handed over when the socket exists and is open; when the
trimmed text is empty or the channel is not open, nothing is sent. -/
theorem C4_voice_request_shape (s : StudioState) :
    (∀ m, (generateSpeech s).2 = some m →
       m.type = "voice_request" ∧ m.text = s.text.trim ∧ m.text ≠ "" ∧
       m.character_id = s.selectedCharacter ∧ s.ws = some WsReady.wsOpen) ∧
    ((s.text.trim = "" ∨ s.ws ≠ some WsReady.wsOpen) →
       (generateSpeech s).2 = none) := by
  unfold generateSpeech
  by_cases ht : s.text.trim = ""
  · rw [if_pos ht]
    exact ⟨fun m hm => Option.noConfusion hm, fun _ => rfl⟩
  · rw [if_neg ht]
    cases hw : s.ws with
    | none =>
      exact ⟨fun m hm => Option.noConfusion hm, fun _ => rfl⟩
    | some w =>
      cases w with
      | wsOpen =>
        refine ⟨fun m hm => ?_, fun hbad => ?_⟩
        · injection hm with hm2
          subst hm2
          exact ⟨rfl, rfl, ht, rfl, rfl⟩
        · rcases hbad with h1 | h2
          · exact absurd h1 ht
          · exact absurd rfl h2
      | wsConnecting => exact ⟨fun m hm => Option.noConfusion hm, fun _ => rfl⟩
      | wsClosing => exact ⟨fun m hm => Option.noConfusion hm, fun _ => rfl⟩
      | wsClosed => exact ⟨fun m hm => Option.noConfusion hm, fun _ => rfl⟩

/-- Claim C5: for an audio reference recognized as the fallback sentinel, a
seek is a complete no-op — the handler returns the state unchanged, so
neither the reported elapsed time nor any element position moves, in every
playback state. -/
theorem C5_placeholder_seek_noop (e : SeekEvent) (s : PlayerState)
    (hp : isPlaceholderUrl (s.audioUrl.getD "") = true) :
    handleSeek e s = s := by
  cases he : s.audioElem with
  | none => exact handleSeek_noElem he
  | some el => exact handleSeek_guard he (Or.inr hp)

/-- Claim C5, witness: a seek at the sample fallback-sentinel state, during
simulated playback as well as at rest, leaves the state unchanged. -/
theorem C5_placeholder_seek_noop_witness :
    handleSeek sampleInSeek sampleBusyState = sampleBusyState :=
  C5_placeholder_seek_noop sampleInSeek sampleBusyState (by decide)

/-- Claim C6, counterexample: with a resolvable locator, nonzero duration
and playback stopped (neither Playing nor Paused mid-stream), a click whose
offset 30 exceeds the 20-unit bar width seeks to 15 — outside
`[0, duration] = [0, 10]` — so the code neither restricts seeking to
Playing/Paused nor clamps the target. -/
theorem C6_counterexample :
    sampleRealState.isPlaying = false ∧
    sampleRealState.duration = 10 ∧
    (handleSeek sampleWideSeek sampleRealState).currentTime = 15 ∧
    ¬((handleSeek sampleWideSeek sampleRealState).currentTime
        ≤ sampleRealState.duration) := by
  have he : sampleRealState.audioElem = some sampleElem := rfl
  have hc : ¬(sampleRealState.duration = 0 ∨
      isPlaceholderUrl ((sampleRealState.audioUrl).getD "") = true) := by
    rintro (h | h)
    · norm_num [sampleRealState] at h
    · exact absurd h (by decide)
  rw [handleSeek_go he hc]
  refine ⟨rfl, rfl, ?_, ?_⟩
  · show (sampleWideSeek.clientX - sampleWideSeek.rectLeft) / sampleWideSeek.rectWidth
        * sampleRealState.duration = 15
    norm_num [sampleWideSeek, sampleRealState]
  · show ¬((sampleWideSeek.clientX - sampleWideSeek.rectLeft) / sampleWideSeek.rectWidth
        * sampleRealState.duration ≤ sampleRealState.duration)
    norm_num [sampleWideSeek, sampleRealState]

/-- Claim C6 (amended): for a resolvable locator, a seek is accepted in any
state whenever the media element exists and the duration is nonzero — the
handler does not check Playing/Paused — and it sets both the element and
the reported time to `(clickX / width) * duration` with no clamping; the
result lies inside `[0, duration]` exactly when the click geometry does
(offset within the bar, positive width, nonnegative duration). -/
theorem C6_seek_unclamped (e : SeekEvent) (s : PlayerState) (el : AudioElem)
    (he : s.audioElem = some el) (hd : ¬(s.duration = 0))
    (hp : isPlaceholderUrl (s.audioUrl.getD "") = false) :
    (handleSeek e s).currentTime
        = (e.clientX - e.rectLeft) / e.rectWidth * s.duration ∧
    (handleSeek e s).audioElem
        = some { el with
            elemTime := (e.clientX - e.rectLeft) / e.rectWidth * s.duration } ∧
    (0 ≤ e.clientX - e.rectLeft → e.clientX - e.rectLeft ≤ e.rectWidth →
     0 < e.rectWidth → 0 ≤ s.duration →
       0 ≤ (handleSeek e s).currentTime ∧
       (handleSeek e s).currentTime ≤ s.duration) := by
  have hc : ¬(s.duration = 0 ∨ isPlaceholderUrl (s.audioUrl.getD "") = true) := by
    rintro (h | h)
    · exact hd h
    · rw [hp] at h
      cases h
  rw [handleSeek_go he hc]
  refine ⟨rfl, rfl, fun h0 h1 h2 h3 => ?_⟩
  constructor
  · show 0 ≤ (e.clientX - e.rectLeft) / e.rectWidth * s.duration
    have := div_nonneg h0 (le_of_lt h2)
    exact mul_nonneg this h3
  · show (e.clientX - e.rectLeft) / e.rectWidth * s.duration ≤ s.duration
    have hq : (e.clientX - e.rectLeft) / e.rectWidth ≤ 1 :=
      (div_le_one h2).mpr h1
    exact mul_le_of_le_one_left h3 hq

/-- Claim C6, witness: an in-range click at the sample real-locator state
seeks to `5 / 20 * 10 = 2.5`, inside `[0, 10]`. -/
theorem C6_seek_unclamped_witness :
    (handleSeek sampleInSeek sampleRealState).currentTime
        = (sampleInSeek.clientX - sampleInSeek.rectLeft) / sampleInSeek.rectWidth
            * sampleRealState.duration ∧
    (handleSeek sampleInSeek sampleRealState).audioElem
        = some { sampleElem with
            elemTime := (sampleInSeek.clientX - sampleInSeek.rectLeft)
                / sampleInSeek.rectWidth * sampleRealState.duration } ∧
    (0 ≤ sampleInSeek.clientX - sampleInSeek.rectLeft →
     sampleInSeek.clientX - sampleInSeek.rectLeft ≤ sampleInSeek.rectWidth →
     0 < sampleInSeek.rectWidth → 0 ≤ sampleRealState.duration →
       0 ≤ (handleSeek sampleInSeek sampleRealState).currentTime ∧
       (handleSeek sampleInSeek sampleRealState).currentTime
         ≤ sampleRealState.duration) :=
  C6_seek_unclamped sampleInSeek sampleRealState sampleElem rfl (by decide) (by decide)

/-- Claim C7, counterexample: from a state playing a sentinel url with a
live timer, a new fallback audio reference resets everything, but the
controller does not "immediately enter Loading": its loading flag is
explicitly reset to false, no network request is issued and no media
element exists — nothing is loading until playback is requested. -/
theorem C7_counterexample :
    sampleBusyState.isPlaying = true ∧
    (changeAudioUrl (some "fallback_next") FetchOutcome.ok sampleBusyState).isLoadingAudio
        = false ∧
    (changeAudioUrl (some "fallback_next") FetchOutcome.ok sampleBusyState).fetchCount
        = sampleBusyState.fetchCount ∧
    (changeAudioUrl (some "fallback_next") FetchOutcome.ok sampleBusyState).audioElem
        = none := by
  decide

/-- Claim C7 (amended): a new audio reference always resets the Playback
Controller to the Empty configuration — playing stopped, times and duration
zeroed, loading flag false, timer cleared, pending promise dropped —
regardless of the previous state; for a fallback-sentinel reference it
stays idle (no request is issued and no error appears) rather than
entering Loading. -/
theorem C7_reset_on_url_change (s : PlayerState) (url : Option String)
    (o : FetchOutcome) :
    (changeAudioUrl url o s).isPlaying = false ∧
    (changeAudioUrl url o s).currentTime = 0 ∧
    (changeAudioUrl url o s).duration = 0 ∧
    (changeAudioUrl url o s).isLoadingAudio = false ∧
    (changeAudioUrl url o s).simInterval = none ∧
    (changeAudioUrl url o s).playPromisePending = false ∧
    (∀ u, url = some u → isPlaceholderUrl u = true →
       (changeAudioUrl url o s).fetchCount = s.fetchCount ∧
       (changeAudioUrl url o s).audioError = none) := by
  obtain ⟨c1, c2, c3, c4, c5, c6, c7, c8, c9, c10, c11, c12⟩ :=
    changeAudioUrl_fields url o s
  refine ⟨c1, c2, c3, c4, c5, c6, fun u hu hp => ?_⟩
  subst hu
  rw [changeAudioUrl_placeholder u o s hp]
  exact ⟨rfl, rfl⟩

/-- Claim C8: each client-side playback error handler — `handleAudioError`
for media-element errors and the `togglePlay` catch block for `Error` and
non-`Error` rejections — writes only the player's own local fields (the
playing flag, the loading flag, the pending play promise, the error
message); the studio component holding the channel, the last received
VoiceResult and all server-facing state is untouched, and every other
player field (url, times, duration, volume, element, timers) is preserved
verbatim. -/
theorem C8_error_handler_frame (g : GlobalState) (code : Option ℕ)
    (name msg : String) :
    (globalPlayerStep (PEvent.mediaError code) g).studio = g.studio ∧
    ({ g with player := handleAudioError code g.player } : GlobalState).studio
        = g.studio ∧
    handleAudioError code g.player
        = { g.player with isPlaying := false, isLoadingAudio := false,
                          playPromisePending := false,
                          audioError := some (mediaErrorMessage code) } ∧
    ({ g with player := applyCatch name msg g.player } : GlobalState).studio
        = g.studio ∧
    applyCatch name msg g.player
        = { g.player with isPlaying := false, isLoadingAudio := false,
                          playPromisePending := false,
                          audioError := some (classifyPlayError name msg) } ∧
    ({ g with player := applyCatchNonError g.player } : GlobalState).studio
        = g.studio ∧
    applyCatchNonError g.player
        = { g.player with isPlaying := false, isLoadingAudio := false,
                          playPromisePending := false,
                          audioError := some
                            "Unable to play audio. The file may be temporarily unavailable." } :=
  ⟨rfl, rfl, rfl, rfl, rfl, rfl, rfl⟩

/-- Claim C9, counterexample: the url `"fallback_abc"` is a fallback
sentinel for the new implementation (`isPlaceholderUrl`) but a real url for
the old one (`isMockUrl`), so the two classifiers are not equivalent; and
even on urls both treat as fallback, the simulated durations differ — the
old mock branch plays 10 seconds, the new one 5. -/
theorem C9_counterexample :
    isPlaceholderUrl "fallback_abc" = true ∧
    isMockUrl "fallback_abc" = false ∧
    (oldMockSimulate sampleOldState).duration = 10 ∧
    (playPlaceholderAudio samplePlaceholderState).duration = 5 := by
  exact ⟨by decide, by decide, rfl, rfl⟩

/-- Claim C9 (amended): the two classifiers agree only one way — every url
the old implementation treats as mock is a placeholder for the new one
(`'mock-audio-service.com'` contains `'mock-audio'`, and `'placeholder_'`
is tested by both), but not conversely (`"fallback_abc"`); and the two mock
playback branches use different fixed durations, 10 seconds (old) versus
5 seconds (new). -/
theorem C9_classifier_relation :
    (∀ url, isMockUrl url = true → isPlaceholderUrl url = true) ∧
    isPlaceholderUrl "fallback_abc" = true ∧
    isMockUrl "fallback_abc" = false ∧
    (∀ t : OldPlayerState, (oldMockSimulate t).duration = 10) ∧
    (∀ (s : PlayerState) (u : String), s.audioUrl = some u →
       (playPlaceholderAudio s).duration = 5) := by
  refine ⟨?_, by decide, by decide, fun t => rfl,
          fun s u hu => (playPlaceholderAudio_fields hu).2.2.2.2.2.1⟩
  intro url h
  unfold isMockUrl at h
  rw [Bool.or_eq_true] at h
  rcases h with hserv | hplace
  · have hmock : jsIncludes url "mock-audio" = true :=
      jsIncludes_trans hserv (by decide)
    unfold isPlaceholderUrl
    rw [hmock]
    simp
  · unfold isPlaceholderUrl
    rw [hplace]
    simp

theorem padStart_len_two (z : ℤ) (h0 : 0 ≤ z) (h60 : z < 60) :
    (padStart 2 '0' (toString z)).length = 2 := by
  lift z to ℕ using h0 with n hn
  have hn60 : n < 60 := by exact_mod_cast h60
  have hrepr : toString ((n : ℤ)) = toString n := rfl
  rw [hrepr]
  exact (by decide : ∀ m : ℕ, m < 60 → (padStart 2 '0' (toString m)).length = 2) n hn60

/-- Claim C10: `formatTime` is total on the embedded JS numbers: `NaN` and
the infinities give `"0:00"`, and every finite nonnegative `t` gives
`floor(t / 60)` minutes, a colon, and `floor(t mod 60)` seconds — where
`t mod 60 = t - 60 * floor(t / 60)` is the JS remainder for nonnegative
`t` — with the seconds string always zero-padded to exactly two digits. -/
theorem C10_formatTime_total (t : ℚ) (h : 0 ≤ t) :
    formatTime JSNum.nan = "0:00" ∧
    formatTime JSNum.posInf = "0:00" ∧
    formatTime JSNum.negInf = "0:00" ∧
    formatTime (JSNum.finite t)
        = toString ⌊t / 60⌋ ++ ":"
            ++ padStart 2 '0' (toString ⌊t - 60 * (⌊t / 60⌋ : ℚ)⌋) ∧
    (padStart 2 '0' (toString ⌊t - 60 * (⌊t / 60⌋ : ℚ)⌋)).length = 2 := by
  have hq : (0 : ℚ) ≤ t / 60 := by positivity
  have hrem : jsRem t 60 = t - 60 * (⌊t / 60⌋ : ℚ) := by
    unfold jsRem jsTrunc
    rw [if_pos hq]
  have hlow : (0 : ℚ) ≤ t - 60 * (⌊t / 60⌋ : ℚ) := by
    have h1 : ((⌊t / 60⌋ : ℚ)) ≤ t / 60 := Int.floor_le _
    have h2 : ((⌊t / 60⌋ : ℚ)) * 60 ≤ t / 60 * 60 :=
      mul_le_mul_of_nonneg_right h1 (by norm_num)
    have h3 : t / 60 * 60 = t := div_mul_cancel₀ t (by norm_num)
    rw [h3] at h2
    linarith
  have hhigh : t - 60 * (⌊t / 60⌋ : ℚ) < 60 := by
    have h1 : t / 60 < (⌊t / 60⌋ : ℚ) + 1 := Int.lt_floor_add_one _
    have h2 : t / 60 * 60 < ((⌊t / 60⌋ : ℚ) + 1) * 60 :=
      mul_lt_mul_of_pos_right h1 (by norm_num)
    have h3 : t / 60 * 60 = t := div_mul_cancel₀ t (by norm_num)
    rw [h3] at h2
    linarith
  have hz0 : (0 : ℤ) ≤ ⌊t - 60 * (⌊t / 60⌋ : ℚ)⌋ := Int.floor_nonneg.mpr hlow
  have hz60 : ⌊t - 60 * (⌊t / 60⌋ : ℚ)⌋ < 60 := by
    rw [Int.floor_lt]
    exact_mod_cast hhigh
  refine ⟨rfl, rfl, rfl, ?_, padStart_len_two _ hz0 hz60⟩
  show toString ⌊t / 60⌋ ++ ":" ++ padStart 2 '0' (toString ⌊jsRem t 60⌋)
      = toString ⌊t / 60⌋ ++ ":" ++ padStart 2 '0' (toString ⌊t - 60 * (⌊t / 60⌋ : ℚ)⌋)
  rw [hrem]

/-- Claim C10, witness: the finite-case formula at `t = 125` (2 minutes,
5 seconds). -/
theorem C10_formatTime_total_witness :
    formatTime JSNum.nan = "0:00" ∧
    formatTime JSNum.posInf = "0:00" ∧
    formatTime JSNum.negInf = "0:00" ∧
    formatTime (JSNum.finite 125)
        = toString ⌊(125 : ℚ) / 60⌋ ++ ":"
            ++ padStart 2 '0' (toString ⌊(125 : ℚ) - 60 * (⌊(125 : ℚ) / 60⌋ : ℚ)⌋) ∧
    (padStart 2 '0' (toString ⌊(125 : ℚ) - 60 * (⌊(125 : ℚ) / 60⌋ : ℚ)⌋)).length = 2 :=
  C10_formatTime_total 125 (by norm_num)
